import Mathlib

/-!
Verification of the qixin-mcp-server signing and dispatch core.

The definitions below are a shallow embedding of the TypeScript source:
* `SignatureService` (src/services/signature.ts, embedded in the repository
  sources): MD5-based request signing and auth-header generation.
* `QixinApiClient` (src/services/qixin-api.ts): retry-with-backoff dispatch,
  error translation, and the eleven query operations.
* `Config` (src/config/index.ts): startup configuration validation.

Machine integers are modelled as `Nat` with explicit reduction modulo `2^32`
(or `2^64`) where the source relies on 32-bit/64-bit wraparound, strings as
Lean `String`s hashed over their UTF-8 bytes, and JavaScript objects as
association lists with last-binding-wins lookup (the semantics of object
literals with a trailing spread).
-/

set_option maxRecDepth 100000
set_option linter.unusedVariables false

namespace Qixin

/-! ### MD5 (the digest used by `crypto.createHash('md5')`) -/

/-- Reduce modulo `2^32`, the wraparound of 32-bit words. -/
def m32 (x : Nat) : Nat := x % 4294967296

/-- 32-bit left rotation (inputs are kept `< 2^32` by construction). -/
def rotl32 (x s : Nat) : Nat := ((x <<< s) % 4294967296) ||| (x >>> (32 - s))

/-- The 64 MD5 round constants `K[i] = floor(2^32 * abs(sin(i+1)))`. -/
def md5K : List Nat :=
  [0xd76aa478, 0xe8c7b756, 0x242070db, 0xc1bdceee,
   0xf57c0faf, 0x4787c62a, 0xa8304613, 0xfd469501,
   0x698098d8, 0x8b44f7af, 0xffff5bb1, 0x895cd7be,
   0x6b901122, 0xfd987193, 0xa679438e, 0x49b40821,
   0xf61e2562, 0xc040b340, 0x265e5a51, 0xe9b6c7aa,
   0xd62f105d, 0x02441453, 0xd8a1e681, 0xe7d3fbc8,
   0x21e1cde6, 0xc33707d6, 0xf4d50d87, 0x455a14ed,
   0xa9e3e905, 0xfcefa3f8, 0x676f02d9, 0x8d2a4c8a,
   0xfffa3942, 0x8771f681, 0x6d9d6122, 0xfde5380c,
   0xa4beea44, 0x4bdecfa9, 0xf6bb4b60, 0xbebfbc70,
   0x289b7ec6, 0xeaa127fa, 0xd4ef3085, 0x04881d05,
   0xd9d4d039, 0xe6db99e5, 0x1fa27cf8, 0xc4ac5665,
   0xf4292244, 0x432aff97, 0xab9423a7, 0xfc93a039,
   0x655b59c3, 0x8f0ccc92, 0xffeff47d, 0x85845dd1,
   0x6fa87e4f, 0xfe2ce6e0, 0xa3014314, 0x4e0811a1,
   0xf7537e82, 0xbd3af235, 0x2ad7d2bb, 0xeb86d391]

/-- The 64 MD5 per-round left-rotation amounts. -/
def md5S : List Nat :=
  [7, 12, 17, 22, 7, 12, 17, 22, 7, 12, 17, 22, 7, 12, 17, 22,
   5, 9, 14, 20, 5, 9, 14, 20, 5, 9, 14, 20, 5, 9, 14, 20,
   4, 11, 16, 23, 4, 11, 16, 23, 4, 11, 16, 23, 4, 11, 16, 23,
   6, 10, 15, 21, 6, 10, 15, 21, 6, 10, 15, 21, 6, 10, 15, 21]

/-- MD5 round mixing function (32-bit complement written as xor with the
all-ones word). -/
def md5F (i b c d : Nat) : Nat :=
  if i < 16 then (b &&& c) ||| ((b ^^^ 0xffffffff) &&& d)
  else if i < 32 then (d &&& b) ||| ((d ^^^ 0xffffffff) &&& c)
  else if i < 48 then b ^^^ c ^^^ d
  else c ^^^ (b ||| (d ^^^ 0xffffffff))

/-- MD5 message-word index schedule. -/
def md5g (i : Nat) : Nat :=
  if i < 16 then i
  else if i < 32 then (5 * i + 1) % 16
  else if i < 48 then (3 * i + 5) % 16
  else (7 * i) % 16

structure MD5State where
  a : Nat
  b : Nat
  c : Nat
  d : Nat
deriving DecidableEq

/-- Group a byte list into little-endian 32-bit words. -/
def toWords : List Nat → List Nat
  | b0 :: b1 :: b2 :: b3 :: rest =>
    (b0 + 256 * b1 + 65536 * b2 + 16777216 * b3) :: toWords rest
  | _ => []

/-- One of the 64 MD5 operations on the running state. -/
def md5Step (M : List Nat) (st : MD5State) (i : Nat) : MD5State :=
  let f := md5F i st.b st.c st.d
  let f := m32 (f + st.a + md5K.getD i 0 + M.getD (md5g i) 0)
  ⟨st.d, m32 (st.b + rotl32 f (md5S.getD i 0)), st.b, st.c⟩

/-- Process one 64-byte block. -/
def md5Chunk (st : MD5State) (block : List Nat) : MD5State :=
  let M := toWords block
  let r := (List.range 64).foldl (md5Step M) st
  ⟨m32 (st.a + r.a), m32 (st.b + r.b), m32 (st.c + r.c), m32 (st.d + r.d)⟩

/-- Split a byte list into 64-byte chunks (structural recursion on a fuel
bound so the definition evaluates inside the kernel; the fuel `l.length`
always suffices because every step consumes at least one element). -/
def chunksAux : Nat → List Nat → List (List Nat)
  | 0, _ => []
  | _, [] => []
  | fuel + 1, l => l.take 64 :: chunksAux fuel (l.drop 64)

def chunks64 (l : List Nat) : List (List Nat) := chunksAux l.length l

/-- Little-endian bytes of a 32-bit word. -/
def leBytes4 (n : Nat) : List Nat :=
  [n % 256, n / 256 % 256, n / 65536 % 256, n / 16777216 % 256]

/-- Little-endian bytes of a 64-bit length field. -/
def leBytes8 (n : Nat) : List Nat :=
  [n % 256, n / 256 % 256, n / 65536 % 256, n / 16777216 % 256,
   n / 4294967296 % 256, n / 1099511627776 % 256,
   n / 281474976710656 % 256, n / 72057594037927936 % 256]

/-- MD5 padding: a `0x80` byte, zeros up to 56 mod 64, then the bit length
as a little-endian 64-bit word. -/
def md5Pad (msg : List Nat) : List Nat :=
  msg ++ (128 :: List.replicate ((119 - msg.length % 64) % 64) 0)
      ++ leBytes8 ((8 * msg.length) % 18446744073709551616)

def md5Init : MD5State := ⟨0x67452301, 0xefcdab89, 0x98badcfe, 0x10325476⟩

/-- MD5 digest of a byte string, as its 16 bytes. -/
def md5Bytes (msg : List Nat) : List Nat :=
  let fin := (chunks64 (md5Pad msg)).foldl md5Chunk md5Init
  leBytes4 fin.a ++ leBytes4 fin.b ++ leBytes4 fin.c ++ leBytes4 fin.d

/-- Lowercase hexadecimal digit for a nibble. -/
def hexDigitChar (n : Nat) : Char := Char.ofNat (if n < 10 then 48 + n else 87 + n)

/-- Render a byte list as lowercase hexadecimal, two digits per byte. -/
def hexRender (bs : List Nat) : String :=
  String.mk (bs.foldr (fun b acc => hexDigitChar (b / 16) :: hexDigitChar (b % 16) :: acc) [])

/-- `crypto.createHash('md5').update(s).digest('hex')`. -/
def md5Hex (msg : List Nat) : String := hexRender (md5Bytes msg)

/-- UTF-8 encoding of one character (Node hashes strings as UTF-8). -/
def utf8Bytes (c : Char) : List Nat :=
  let n := c.toNat
  if n < 128 then [n]
  else if n < 2048 then [192 + n / 64, 128 + n % 64]
  else if n < 65536 then [224 + n / 4096, 128 + n / 64 % 64, 128 + n % 64]
  else [240 + n / 262144, 128 + n / 4096 % 64, 128 + n / 64 % 64, 128 + n % 64]

/-- UTF-8 bytes of a string. -/
def strBytes (s : String) : List Nat := s.data.foldr (fun c acc => utf8Bytes c ++ acc) []

/-! ### SignatureService (src/services/signature.ts) -/

/-- `SignatureOptions` from src/types: `{ appkey, timestamp, secretKey }`.
The timestamp is a millisecond epoch integer. -/
structure SignatureOptions where
  appkey : String
  timestamp : Nat
  secretKey : String

namespace SignatureService

/-- `SignatureService.validateSignatureParams`: reject empty or short
credentials (the `typeof` string check is vacuous in a typed embedding).
The thrown `Error` is modelled as `Except.error` with the source's message. -/
def validateSignatureParams (appkey secretKey : String) : Except String Unit :=
  if appkey = "" then
    Except.error "Invalid appkey: appkey must be a non-empty string"
  else if secretKey = "" then
    Except.error "Invalid secretKey: secretKey must be a non-empty string"
  else if appkey.length < 10 then
    Except.error "Invalid appkey: appkey length is too short"
  else if secretKey.length < 10 then
    Except.error "Invalid secretKey: secretKey length is too short"
  else Except.ok ()

/-- `SignatureService.generateSignature`: validate, then MD5 the template
string `${appkey}${timestamp}${secretKey}` (a `Nat` timestamp interpolates
as its decimal form). -/
def generateSignature (options : SignatureOptions) : Except String String :=
  match validateSignatureParams options.appkey options.secretKey with
  | Except.error e => Except.error e
  | Except.ok _ =>
    Except.ok (md5Hex (strBytes
      (options.appkey ++ toString options.timestamp ++ options.secretKey)))

/-- The header record returned by `generateAuthHeaders`:
`Auth-version`, `appkey`, `timestamp`, `sign`, `Connection`. -/
structure AuthHeaders where
  authVersion : String
  appkey : String
  timestamp : String
  sign : String
  connection : String
deriving DecidableEq

/-- `SignatureService.generateAuthHeaders`: reads the wall clock
(`generateTimestamp`, modelled by the explicit `now` argument), signs, and
returns the fixed header set. -/
def generateAuthHeaders (appkey secretKey : String) (now : Nat) :
    Except String AuthHeaders :=
  match generateSignature ⟨appkey, now, secretKey⟩ with
  | Except.error e => Except.error e
  | Except.ok s => Except.ok ⟨"2.0", appkey, toString now, s, "keep-alive"⟩

end SignatureService

/-! ### JavaScript value model

Upstream payloads are untyped JSON objects.  We model an object as an
association list with the lookup semantics of object literals: a later
binding shadows an earlier one, so an object literal with a trailing
spread (`{ a: x, ...data }`) is just list append. -/

/-- A JavaScript value as far as the dispatcher inspects one: scalar
fields of upstream payloads, plus `undefined` for absent properties. -/
inductive Val where
  | str (s : String)
  | num (n : Int)
  | boolean (b : Bool)
  | null
  | undef
deriving DecidableEq

/-- JavaScript truthiness of a `Val`. -/
def Val.truthy : Val → Bool
  | .str s => s ≠ ""
  | .num n => n ≠ 0
  | .boolean b => b
  | .null => false
  | .undef => false

/-- `a || b`. -/
def jsOr (a b : Val) : Val := if a.truthy then a else b

/-- An object: key/value bindings where a later binding wins. -/
abbrev Obj : Type := List (String × Val)

/-- Property lookup, last binding wins; absent keys read as `undefined`. -/
def objGet (o : Obj) (k : String) : Val :=
  o.foldl (fun acc p => if p.1 = k then p.2 else acc) Val.undef

/-- Does the object have an own property named `k`? -/
def hasKey (o : Obj) (k : String) : Bool := o.any (fun p => p.1 = k)

/-- JavaScript `String.prototype.trim()`: strip whitespace from both ends
(modelled over the character list so it evaluates inside the kernel). -/
def jsTrim (s : String) : String :=
  String.mk
    (((s.data.dropWhile (fun c => c.isWhitespace)).reverse.dropWhile
      (fun c => c.isWhitespace)).reverse)

/-! ### QixinApiClient (src/services/qixin-api.ts) -/

/-- A JavaScript number produced by `parseInt`: an integer or `NaN`. -/
inductive JsNum where
  | nan
  | int (n : Int)
deriving DecidableEq

/-- `parseInt(s, 10)` on a decimal string: skip leading whitespace, read an
optional sign and the longest leading digit run, ignore the rest; no
digits gives `NaN`. -/
def parseIntJs (s : String) : JsNum :=
  let signAndRest : Int × List Char :=
    match s.data.dropWhile (fun c => c.isWhitespace) with
    | '-' :: cs => (-1, cs)
    | '+' :: cs => (1, cs)
    | cs => (1, cs)
  let ds := signAndRest.2.takeWhile (fun c => c.isDigit)
  if ds.isEmpty then JsNum.nan
  else JsNum.int (signAndRest.1 *
    (ds.foldl (fun a c => a * 10 + (c.toNat - 48)) 0 : Nat))

/-- `QixinApiError` (src/types): message, optional code, optional numeric
status (which can be `NaN` when built from `parseInt` of a non-numeric
upstream status). -/
structure QixinApiError where
  message : String
  code : Option String
  statusCode : Option JsNum
deriving DecidableEq

/-- `QixinApiResponse` (src/types): the upstream envelope
`{ status, message, data?, error_code? }`.  `message` is optional here so
that `data.message || fallback` can be modelled on absent fields. -/
structure Envelope where
  status : String
  message : Option String
  data : Option Obj
  error_code : Option String
deriving DecidableEq

/-- `a || fallback` for an optional string (absent or empty is falsy). -/
def jsOrStr (a : Option String) (b : String) : String :=
  match a with
  | some s => if s = "" then b else s
  | none => b

/-- `a || fallback` for an optional number (absent or 0 is falsy). -/
def jsOrNat (a : Option Nat) (b : Nat) : Nat :=
  match a with
  | some n => if n = 0 then b else n
  | none => b

/-- What one HTTP attempt through axios produced: a resolved response
carrying the parsed envelope, a rejected `AxiosError` with an HTTP error
status (`error.response` present), or a rejection with no response at all
(network failure or `ECONNABORTED` timeout). -/
inductive HttpOutcome where
  | ok (env : Envelope)
  | httpError (status : Nat) (body : Option Envelope)
  | networkError
deriving DecidableEq

/-- `QixinApiClient.shouldRetry`: retry on missing response / timeout, on
5xx, and on 429; nothing else. -/
def shouldRetry : HttpOutcome → Bool
  | .ok _ => false
  | .networkError => true
  | .httpError status _ =>
    if 500 ≤ status then true
    else if status = 429 then true
    else false

/-- How one dispatched logical call ended: a resolved envelope, a thrown
transport/HTTP error, or the response script ran out (never the case in the
theorems below, which always supply one outcome per attempt). -/
inductive RetryOutcome where
  | success (env : Envelope)
  | failure (e : HttpOutcome)
  | exhausted
deriving DecidableEq

/-- Observable trace of `requestWithRetry`: final outcome, number of HTTP
attempts issued, and the backoff delays slept between attempts. -/
structure RetryResult where
  outcome : RetryOutcome
  attempts : Nat
  delays : List Nat
deriving DecidableEq

/-- `QixinApiClient.requestWithRetry`: issue the request; on a thrown error
that `shouldRetry` accepts while `retryCount < maxRetries`, sleep
`min(1000 * 2^retryCount, 10000)` ms and recurse with `retryCount + 1`;
otherwise rethrow.  The environment is modelled as the list of outcomes the
successive attempts would produce. -/
def requestWithRetry (maxRetries : Nat) : List HttpOutcome → Nat → RetryResult
  | [], _ => ⟨.exhausted, 0, []⟩
  | .ok env :: _, _ => ⟨.success env, 1, []⟩
  | e :: rest, retryCount =>
    if retryCount < maxRetries ∧ shouldRetry e then
      let delay := min (1000 * 2 ^ retryCount) 10000
      let deeper := requestWithRetry maxRetries rest (retryCount + 1)
      ⟨deeper.outcome, deeper.attempts + 1, delay :: deeper.delays⟩
    else ⟨.failure e, 1, []⟩

/-- `QixinApiClient.handleApiError`: translate a thrown non-`QixinApiError`
into a `QixinApiError` (a `QixinApiError` thrown inside the `try` block is
rethrown unchanged by the source and is modelled as such at each call
site). -/
def handleApiError : HttpOutcome → QixinApiError
  | .httpError status body =>
    { message := jsOrStr (body.bind (fun d => d.message)) ("API 请求失败: " ++ toString status)
      code := some (jsOrStr (body.bind (fun d => d.error_code)) "API_ERROR")
      statusCode := some (.int status) }
  | .networkError =>
    { message := "网络请求失败，请检查网络连接"
      code := some "NETWORK_ERROR"
      statusCode := none }
  | .ok _ =>
    { message := "未知错误", code := some "UNKNOWN_ERROR", statusCode := none }

/-- `QixinApiClient.formatEnterpriseInfo`: the canonical aliased fields are
listed first and the whole upstream object is spread after them, so an
upstream binding shadows the canonical one for the same key. -/
def formatEnterpriseInfo (data : Obj) : Obj :=
  [("name", jsOr (objGet data "name") (jsOr (objGet data "entName") (.str ""))),
   ("creditCode", jsOr (objGet data "creditCode") (jsOr (objGet data "creditNo") (.str ""))),
   ("legalPerson", jsOr (objGet data "legalPerson") (jsOr (objGet data "legalPersonName") (.str ""))),
   ("registeredCapital", jsOr (objGet data "registeredCapital") (jsOr (objGet data "regCapital") (.str ""))),
   ("establishDate", jsOr (objGet data "establishDate") (jsOr (objGet data "esDate") (.str ""))),
   ("businessStatus", jsOr (objGet data "businessStatus") (jsOr (objGet data "status") (.str ""))),
   ("businessScope", jsOr (objGet data "businessScope") (jsOr (objGet data "scope") (.str ""))),
   ("registeredAddress", jsOr (objGet data "registeredAddress") (jsOr (objGet data "address") (.str "")))]
  ++ data

/-- The client's configuration fields as set by the constructor. -/
structure QixinApiClient where
  appkey : String
  secretKey : String
  baseUrl : String
  timeout : Nat
  maxRetries : Nat
deriving DecidableEq

/-- The `QixinApiClient` constructor: every optional argument goes through
JavaScript `||`, so an absent argument — and equally a passed `0` — falls
back to the default (`timeout || 30000`, `maxRetries || 3`). -/
def mkQixinApiClient (appkey secretKey : String) (baseUrl : Option String)
    (timeout maxRetries : Option Nat) : QixinApiClient :=
  { appkey := appkey
    secretKey := secretKey
    baseUrl := jsOrStr baseUrl "https://api.qixin.com/APIService"
    timeout := jsOrNat timeout 30000
    maxRetries := jsOrNat maxRetries 3 }

/-- Result of one tool operation: the value returned or the
`QixinApiError` thrown, together with how many HTTP requests went out. -/
instance {ε α : Type} [DecidableEq ε] [DecidableEq α] :
    DecidableEq (Except ε α) := fun x y =>
  match x, y with
  | .error a, .error b => decidable_of_iff (a = b) (by simp)
  | .ok a, .ok b => decidable_of_iff (a = b) (by simp)
  | .error _, .ok _ => isFalse (fun h => Except.noConfusion h)
  | .ok _, .error _ => isFalse (fun h => Except.noConfusion h)

structure OpResult where
  result : Except QixinApiError Obj
  httpCalls : Nat
deriving DecidableEq

/-- The envelope handling shared verbatim by the ten standard operations
(every operation except `getBasicInfo`): non-`'200'` status throws a
`QixinApiError` carrying the upstream message, `error_code` and
`parseInt(status)`; missing `data` throws `NO_DATA`; otherwise `data` is
returned as-is.  Thrown transport errors go through `handleApiError`. -/
def runStandardQuery (c : QixinApiClient) (noDataMsg : String)
    (responses : List HttpOutcome) : OpResult :=
  let r := requestWithRetry c.maxRetries responses 0
  match r.outcome with
  | .success data =>
    if data.status ≠ "200" then
      ⟨Except.error ⟨jsOrStr data.message "查询失败", data.error_code,
        some (parseIntJs data.status)⟩, r.attempts⟩
    else
      match data.data with
      | none => ⟨Except.error ⟨noDataMsg, some "NO_DATA", none⟩, r.attempts⟩
      | some d => ⟨Except.ok d, r.attempts⟩
  | .failure e => ⟨Except.error (handleApiError e), r.attempts⟩
  | .exhausted => ⟨Except.error ⟨"未知错误", some "UNKNOWN_ERROR", none⟩, r.attempts⟩

/-- `QixinApiClient.getBasicInfo`: empty-keyword guard, then the dispatch;
uniquely, this operation accepts both `'200'` and `'success'` as the
success sentinel and formats the payload through `formatEnterpriseInfo`. -/
def getBasicInfo (c : QixinApiClient) (keyword : String)
    (responses : List HttpOutcome) : OpResult :=
  if keyword = "" ∨ (jsTrim keyword).length = 0 then
    ⟨Except.error ⟨"查询关键词不能为空", none, none⟩, 0⟩
  else
    let endpoint := "/enterprise/getBasicInfo"
    let params := [("keyword", Val.str (jsTrim keyword))]
    let r := requestWithRetry c.maxRetries responses 0
    match r.outcome with
    | .success data =>
      if data.status ≠ "200" ∧ data.status ≠ "success" then
        ⟨Except.error ⟨jsOrStr data.message "查询失败", data.error_code,
          some (parseIntJs data.status)⟩, r.attempts⟩
      else
        match data.data with
        | none => ⟨Except.error ⟨"未找到相关企业信息", some "NO_DATA", none⟩, r.attempts⟩
        | some d => ⟨Except.ok (formatEnterpriseInfo d), r.attempts⟩
    | .failure e => ⟨Except.error (handleApiError e), r.attempts⟩
    | .exhausted => ⟨Except.error ⟨"未知错误", some "UNKNOWN_ERROR", none⟩, r.attempts⟩

/-- `QixinApiClient.searchEnterprise`: requires a trimmed keyword of at
least 2 characters and rejects the bare literals `公司` and `有限公司`
before any request goes out. -/
def searchEnterprise (c : QixinApiClient) (keyword : String)
    (matchType region : Option String) (skip : Option Nat)
    (responses : List HttpOutcome) : OpResult :=
  if keyword = "" ∨ (jsTrim keyword).length < 2 then
    ⟨Except.error ⟨"查询关键词至少需要2个字符", none, none⟩, 0⟩
  else
    let trimmedKeyword := jsTrim keyword
    if trimmedKeyword = "公司" ∨ trimmedKeyword = "有限公司" then
      ⟨Except.error ⟨"不允许仅输入\x22公司\x22或\x22有限公司\x22", none, none⟩, 0⟩
    else
      let endpoint := "/v2/search/advSearch"
      runStandardQuery c "未找到相关企业信息" responses

/-- `QixinApiClient.getContactInfo`. -/
def getContactInfo (c : QixinApiClient) (keyword : String)
    (responses : List HttpOutcome) : OpResult :=
  if keyword = "" ∨ (jsTrim keyword).length = 0 then
    ⟨Except.error ⟨"查询关键词不能为空", none, none⟩, 0⟩
  else
    let endpoint := "/enterprise/getContactInfo"
    runStandardQuery c "未找到企业联系方式信息" responses

/-- `QixinApiClient.getEntSize`. -/
def getEntSize (c : QixinApiClient) (name : String)
    (responses : List HttpOutcome) : OpResult :=
  if name = "" ∨ (jsTrim name).length = 0 then
    ⟨Except.error ⟨"企业名称不能为空", none, none⟩, 0⟩
  else
    let endpoint := "/enterprise/getEntSize"
    runStandardQuery c "未找到企业规模信息" responses

/-- `QixinApiClient.getExecutedEnterprise`. -/
def getExecutedEnterprise (c : QixinApiClient) (name : String)
    (skip : Option Nat) (responses : List HttpOutcome) : OpResult :=
  if name = "" ∨ (jsTrim name).length = 0 then
    ⟨Except.error ⟨"企业名称不能为空", none, none⟩, 0⟩
  else
    let endpoint := "/execution/getExecutedpersonListByName"
    runStandardQuery c "未找到被执行企业信息" responses

/-- `QixinApiClient.getDishonestEnterprise`. -/
def getDishonestEnterprise (c : QixinApiClient) (keyword : String)
    (skip : Option Nat) (responses : List HttpOutcome) : OpResult :=
  if keyword = "" ∨ (jsTrim keyword).length = 0 then
    ⟨Except.error ⟨"查询关键词不能为空", none, none⟩, 0⟩
  else
    let endpoint := "/execution/getExecutionListByName"
    runStandardQuery c "未找到失信被执行企业信息" responses

/-- `QixinApiClient.getLegalDocuments`. -/
def getLegalDocuments (c : QixinApiClient) (name : String)
    (matchType : Option String) (skip : Option Nat)
    (responses : List HttpOutcome) : OpResult :=
  if name = "" ∨ (jsTrim name).length = 0 then
    ⟨Except.error ⟨"企业名称不能为空", none, none⟩, 0⟩
  else
    let endpoint := "/lawsuit/getLawsuitListByName"
    runStandardQuery c "未找到裁判文书信息" responses

/-- `QixinApiClient.getEnterpriseGenealogy3`. -/
def getEnterpriseGenealogy3 (c : QixinApiClient) (name : String)
    (responses : List HttpOutcome) : OpResult :=
  if name = "" ∨ (jsTrim name).length = 0 then
    ⟨Except.error ⟨"企业名称不能为空", none, none⟩, 0⟩
  else
    let endpoint := "/relation/getRelationInfoByName"
    runStandardQuery c "未找到企业族谱信息" responses

/-- `QixinApiClient.getAdminPenalty`. -/
def getAdminPenalty (c : QixinApiClient) (keyword : String)
    (skip : Option Nat) (responses : List HttpOutcome) : OpResult :=
  if keyword = "" ∨ (jsTrim keyword).length = 0 then
    ⟨Except.error ⟨"查询关键词不能为空", none, none⟩, 0⟩
  else
    let endpoint := "/v2/adminPunish/getAdminPunishByName"
    runStandardQuery c "未找到行政处罚信息" responses

/-- `QixinApiClient.getSeriousIllegal`. -/
def getSeriousIllegal (c : QixinApiClient) (name : String)
    (responses : List HttpOutcome) : OpResult :=
  if name = "" ∨ (jsTrim name).length = 0 then
    ⟨Except.error ⟨"企业名称不能为空", none, none⟩, 0⟩
  else
    let endpoint := "/enterprise/getSeriousIllegalByName"
    runStandardQuery c "未找到严重违法信息" responses

/-- `QixinApiClient.getGuaranteeList`. -/
def getGuaranteeList (c : QixinApiClient) (name : String)
    (skip : Option Nat) (responses : List HttpOutcome) : OpResult :=
  if name = "" ∨ (jsTrim name).length = 0 then
    ⟨Except.error ⟨"企业名称不能为空", none, none⟩, 0⟩
  else
    let endpoint := "/qc/getGuaranteeList"
    runStandardQuery c "未找到对外担保信息" responses

/-! ### Config (src/config/index.ts) -/

/-- The environment variables the configuration reads (a variable may be
unset). -/
structure Env where
  appKeyVar : Option String
  secretKeyVar : Option String
  baseUrlVar : Option String
  timeoutVar : Option String
  maxRetriesVar : Option String

/-- `ConfigOptions` as produced by `loadConfig`: the numeric fields come
from `parseInt` and can be `NaN`. -/
structure ConfigOptions where
  appKey : String
  secretKey : String
  baseUrl : String
  timeout : JsNum
  maxRetries : JsNum
deriving DecidableEq

/-- `Config.loadConfig`: defaults applied with `||`, numerics parsed with
`parseInt(-, 10)`. -/
def loadConfig (env : Env) : ConfigOptions :=
  { appKey := jsOrStr env.appKeyVar ""
    secretKey := jsOrStr env.secretKeyVar ""
    baseUrl := jsOrStr env.baseUrlVar "https://api.qixin.com/APIService"
    timeout := parseIntJs (jsOrStr env.timeoutVar "30000")
    maxRetries := parseIntJs (jsOrStr env.maxRetriesVar "3") }

/-- JavaScript `a < b` on a number that may be `NaN` (`NaN` compares
false). -/
def JsNum.ltNum (a : JsNum) (b : Int) : Bool :=
  match a with
  | .nan => false
  | .int n => n < b

/-- JavaScript `a > b` on a number that may be `NaN`. -/
def JsNum.gtNum (a : JsNum) (b : Int) : Bool :=
  match a with
  | .nan => false
  | .int n => b < n

/-- JavaScript falsiness of a number: `0` and `NaN` are falsy. -/
def JsNum.falsy : JsNum → Bool
  | .nan => true
  | .int n => n = 0

/-- `Config.validateConfig`.  `loadConfig` always assigns `maxRetries`, so
the source's `maxRetries === undefined` disjunct is vacuous; `NaN` makes
both the `< 0` and `> 10` comparisons false. -/
def validateConfig (o : ConfigOptions) : Except String Unit :=
  if o.appKey = "" ∨ o.secretKey = "" then
    Except.error "缺少必要的环境变量配置。请设置 QIXIN_APP_KEY 和 QIXIN_SECRET_KEY 环境变量。"
  else if o.appKey.length < 10 then
    Except.error "QIXIN_APP_KEY 格式不正确"
  else if o.secretKey.length < 10 then
    Except.error "QIXIN_SECRET_KEY 格式不正确"
  else if o.timeout.falsy ∨ o.timeout.ltNum 1000 ∨ o.timeout.gtNum 60000 then
    Except.error "超时时间应在 1-60 秒之间"
  else if o.maxRetries.ltNum 0 ∨ o.maxRetries.gtNum 10 then
    Except.error "最大重试次数应在 0-10 次之间"
  else Except.ok ()

/-- The `Config` constructor: `loadConfig` then `validateConfig`, at
process startup; a failure is a startup `ConfigError`. -/
def configInit (env : Env) : Except String ConfigOptions :=
  match validateConfig (loadConfig env) with
  | Except.error e => Except.error e
  | Except.ok _ => Except.ok (loadConfig env)

/-- `maxRetries || 3` as evaluated by the `QixinApiClient` constructor on
the number coming out of the configuration: `0` and `NaN` are falsy and
fall back to 3 (a negative value would stay, behaving as "no retries",
modelled by `Int.toNat`). -/
def effectiveMaxRetries (m : JsNum) : Nat :=
  match m with
  | .nan => 3
  | .int n => if n = 0 then 3 else n.toNat

/-! ### Helper lemmas: the hexadecimal rendering -/

/-- The sixteen lowercase hexadecimal digit characters. -/
def hexChars : List Char := "0123456789abcdef".data

theorem hexDigitChar_mem (n : Nat) (h : n < 16) : hexDigitChar n ∈ hexChars := by
  interval_cases n <;> decide

theorem hexList_length (bs : List Nat) :
    (bs.foldr (fun b acc => hexDigitChar (b / 16) :: hexDigitChar (b % 16) :: acc)
      ([] : List Char)).length = 2 * bs.length := by
  induction bs with
  | nil => rfl
  | cons b t ih => simp only [List.foldr_cons, List.length_cons, ih]; omega

theorem hexRender_length (bs : List Nat) : (hexRender bs).length = 2 * bs.length := by
  simpa [hexRender, String.length] using hexList_length bs

theorem hexList_mem (bs : List Nat) (hb : ∀ b ∈ bs, b < 256) :
    ∀ c ∈ bs.foldr (fun b acc => hexDigitChar (b / 16) :: hexDigitChar (b % 16) :: acc)
      ([] : List Char), c ∈ hexChars := by
  induction bs with
  | nil => intro c hc; simp at hc
  | cons b t ih =>
    intro c hc
    have hb1 : b < 256 := hb b (List.mem_cons_self b t)
    simp only [List.foldr_cons, List.mem_cons] at hc
    rcases hc with rfl | rfl | hc
    · exact hexDigitChar_mem _ ((Nat.div_lt_iff_lt_mul (by norm_num)).mpr (by omega))
    · exact hexDigitChar_mem _ (Nat.mod_lt _ (by norm_num))
    · exact ih (fun x hx => hb x (List.mem_cons_of_mem _ hx)) c hc

theorem md5Bytes_length (msg : List Nat) : (md5Bytes msg).length = 16 := by
  unfold md5Bytes leBytes4
  simp

theorem leBytes4_lt (n : Nat) : ∀ b ∈ leBytes4 n, b < 256 := by
  intro b hb
  simp only [leBytes4, List.mem_cons, List.not_mem_nil, or_false] at hb
  rcases hb with rfl | rfl | rfl | rfl <;> exact Nat.mod_lt _ (by norm_num)

theorem md5Bytes_lt (msg : List Nat) : ∀ b ∈ md5Bytes msg, b < 256 := by
  unfold md5Bytes
  intro b hb
  simp only [List.mem_append] at hb
  rcases hb with ((h | h) | h) | h <;> exact leBytes4_lt _ b h

theorem md5Hex_length (msg : List Nat) : (md5Hex msg).length = 32 := by
  unfold md5Hex
  rw [hexRender_length, md5Bytes_length]

theorem md5Hex_mem (msg : List Nat) : ∀ c ∈ (md5Hex msg).data, c ∈ hexChars := by
  unfold md5Hex hexRender
  exact hexList_mem _ (md5Bytes_lt msg)

/-! ### Helper lemmas: injectivity of the decimal rendering of `Nat`
(needed to show distinct timestamps give distinct header sets) -/

/-- Decimal value of a digit character. -/
def decVal (c : Char) : Nat := c.toNat - 48

/-- Fold a decimal character list back into the number it denotes. -/
def parseDecChars (cs : List Char) : Nat :=
  cs.foldl (fun a c => a * 10 + decVal c) 0

theorem decVal_digitChar : ∀ m, m < 10 → decVal (Nat.digitChar m) = m := by decide

theorem toDigitsCore_append (n : Nat) : ∀ (fuel : Nat) (ds : List Char), n < fuel →
    Nat.toDigitsCore 10 fuel n ds = Nat.toDigitsCore 10 (n + 1) n [] ++ ds := by
  induction n using Nat.strong_induction_on with
  | _ n ih =>
    intro fuel ds hf
    cases fuel with
    | zero => omega
    | succ f =>
      unfold Nat.toDigitsCore
      by_cases h0 : n / 10 = 0
      · simp [h0]
      · simp only [h0, if_false]
        have hdiv : n / 10 < n := by omega
        rw [ih (n / 10) hdiv f (Nat.digitChar (n % 10) :: ds) (by omega),
            ih (n / 10) hdiv n [Nat.digitChar (n % 10)] (by omega)]
        simp

theorem toDigits_small (n : Nat) (h : n < 10) :
    Nat.toDigits 10 n = [Nat.digitChar (n % 10)] := by
  unfold Nat.toDigits Nat.toDigitsCore
  have h0 : n / 10 = 0 := by omega
  simp [h0]

theorem toDigits_large (n : Nat) (h : 10 ≤ n) :
    Nat.toDigits 10 n = Nat.toDigits 10 (n / 10) ++ [Nat.digitChar (n % 10)] := by
  show Nat.toDigitsCore 10 (n + 1) n [] = _
  unfold Nat.toDigitsCore
  have h0 : ¬ n / 10 = 0 := by omega
  simp only [h0, if_false]
  exact toDigitsCore_append (n / 10) n [Nat.digitChar (n % 10)] (by omega)

theorem parseDecChars_toDigits (n : Nat) : parseDecChars (Nat.toDigits 10 n) = n := by
  induction n using Nat.strong_induction_on with
  | _ n ih =>
    by_cases h : n < 10
    · rw [toDigits_small n h]
      unfold parseDecChars
      simp only [List.foldl_cons, List.foldl_nil, decVal_digitChar (n % 10) (by omega)]
      omega
    · rw [toDigits_large n (by omega)]
      unfold parseDecChars
      rw [List.foldl_append]
      have key := ih (n / 10) (by omega)
      unfold parseDecChars at key
      rw [key]
      simp only [List.foldl_cons, List.foldl_nil, decVal_digitChar (n % 10) (by omega)]
      omega

theorem toString_nat_inj (m n : Nat) (h : toString m = toString n) : m = n := by
  have hd : Nat.toDigits 10 m = Nat.toDigits 10 n := congrArg String.data h
  have hm := parseDecChars_toDigits m
  have hn := parseDecChars_toDigits n
  rw [← hm, ← hn, hd]

/-! ### Helper lemmas: object lookup -/

theorem foldl_objGet_of_not_hasKey (k : String) : ∀ (o : Obj), hasKey o k = false →
    ∀ a : Val, o.foldl (fun acc p => if p.1 = k then p.2 else acc) a = a := by
  intro o
  induction o with
  | nil => intro _ a; rfl
  | cons p t ih =>
    intro h a
    simp only [hasKey, List.any_cons, Bool.or_eq_false_iff,
      decide_eq_false_iff_not] at h
    simp only [List.foldl_cons, if_neg h.1]
    exact ih h.2 a

theorem foldl_objGet_of_hasKey (k : String) : ∀ (o : Obj), hasKey o k = true →
    ∀ a b : Val, o.foldl (fun acc p => if p.1 = k then p.2 else acc) a =
      o.foldl (fun acc p => if p.1 = k then p.2 else acc) b := by
  intro o
  induction o with
  | nil => intro h; simp [hasKey] at h
  | cons p t ih =>
    intro h a b
    by_cases hp : p.1 = k
    · simp only [List.foldl_cons, if_pos hp]
    · simp only [List.foldl_cons, if_neg hp]
      have ht : hasKey t k = true := by
        simp only [hasKey, List.any_cons, Bool.or_eq_true,
          decide_eq_true_eq] at h
        rcases h with h | h
        · exact absurd h hp
        · exact h
      exact ih ht a b

theorem objGet_append (o₁ o₂ : Obj) (k : String) :
    objGet (o₁ ++ o₂) k =
      if hasKey o₂ k then objGet o₂ k else objGet o₁ k := by
  unfold objGet
  rw [List.foldl_append]
  by_cases h : hasKey o₂ k = true
  · rw [if_pos h]
    exact foldl_objGet_of_hasKey k o₂ h _ _
  · rw [if_neg h]
    exact foldl_objGet_of_not_hasKey k o₂ (by simpa using h) _

theorem objGet_of_not_hasKey (o : Obj) (k : String) (h : hasKey o k = false) :
    objGet o k = Val.undef :=
  foldl_objGet_of_not_hasKey k o h Val.undef

theorem hasKey_append (o₁ o₂ : Obj) (k : String) :
    hasKey (o₁ ++ o₂) k = (hasKey o₁ k || hasKey o₂ k) := by
  simp [hasKey, List.any_append]

/-! ### Helper lemmas: the retry dispatcher -/

theorem requestWithRetry_ok (maxRetries : Nat) (env : Envelope)
    (rest : List HttpOutcome) (j : Nat) :
    requestWithRetry maxRetries (HttpOutcome.ok env :: rest) j =
      ⟨RetryOutcome.success env, 1, []⟩ := rfl

theorem requestWithRetry_retry (maxRetries : Nat) (e : HttpOutcome)
    (rest : List HttpOutcome) (j : Nat) (hj : j < maxRetries)
    (he : shouldRetry e = true) :
    requestWithRetry maxRetries (e :: rest) j =
      ⟨(requestWithRetry maxRetries rest (j + 1)).outcome,
       (requestWithRetry maxRetries rest (j + 1)).attempts + 1,
       min (1000 * 2 ^ j) 10000 :: (requestWithRetry maxRetries rest (j + 1)).delays⟩ := by
  cases e with
  | ok env => simp [shouldRetry] at he
  | httpError s b =>
    simp only [requestWithRetry]
    rw [if_pos ⟨hj, he⟩]
  | networkError =>
    simp only [requestWithRetry]
    rw [if_pos ⟨hj, he⟩]

theorem requestWithRetry_noRetry (maxRetries : Nat) (e : HttpOutcome)
    (rest : List HttpOutcome) (j : Nat)
    (h : ¬(j < maxRetries ∧ shouldRetry e = true))
    (hne : ∀ env, e ≠ HttpOutcome.ok env) :
    requestWithRetry maxRetries (e :: rest) j = ⟨RetryOutcome.failure e, 1, []⟩ := by
  cases e with
  | ok env => exact absurd rfl (hne env)
  | httpError s b =>
    simp only [requestWithRetry]
    rw [if_neg h]
  | networkError =>
    simp only [requestWithRetry]
    rw [if_neg h]

theorem requestWithRetry_replicate (maxRetries : Nat) (e : HttpOutcome)
    (he : shouldRetry e = true) (env : Envelope) :
    ∀ (N j : Nat), j + N ≤ maxRetries →
      requestWithRetry maxRetries (List.replicate N e ++ [HttpOutcome.ok env]) j =
        ⟨RetryOutcome.success env, N + 1,
         (List.range N).map (fun k => min (1000 * 2 ^ (j + k)) 10000)⟩ := by
  intro N
  induction N with
  | zero =>
    intro j hj
    simp only [List.replicate, List.nil_append, List.range_zero, List.map_nil]
    exact requestWithRetry_ok maxRetries env [] j
  | succ n ih =>
    intro j hj
    rw [List.replicate_succ, List.cons_append,
        requestWithRetry_retry maxRetries e _ j (by omega) he, ih (j + 1) (by omega)]
    have harr : (fun k => min (1000 * 2 ^ (j + 1 + k)) 10000) =
        (fun k => min (1000 * 2 ^ (j + (k + 1))) 10000) := by
      funext k
      have hjk : j + 1 + k = j + (k + 1) := by omega
      rw [hjk]
    rw [List.range_succ_eq_map]
    simp only [List.map_cons, List.map_map, Function.comp, Nat.add_zero]
    rw [harr]
    simp only [Function.comp_def, Nat.succ_eq_add_one]

/-! ### Helper lemmas: the signature service on valid credentials -/

theorem validateSignatureParams_ok (key secret : String)
    (hk : 10 ≤ key.length) (hs : 10 ≤ secret.length) :
    SignatureService.validateSignatureParams key secret = Except.ok () := by
  have h1 : ¬ key = "" := by
    intro h
    rw [h] at hk
    exact absurd hk (by decide)
  have h2 : ¬ secret = "" := by
    intro h
    rw [h] at hs
    exact absurd hs (by decide)
  unfold SignatureService.validateSignatureParams
  rw [if_neg h1, if_neg h2, if_neg (by omega), if_neg (by omega)]

theorem generateSignature_ok (key secret : String) (t : Nat)
    (hk : 10 ≤ key.length) (hs : 10 ≤ secret.length) :
    SignatureService.generateSignature ⟨key, t, secret⟩ =
      Except.ok (md5Hex (strBytes (key ++ toString t ++ secret))) := by
  unfold SignatureService.generateSignature
  rw [validateSignatureParams_ok key secret hk hs]

theorem generateAuthHeaders_ok (key secret : String) (now : Nat)
    (hk : 10 ≤ key.length) (hs : 10 ≤ secret.length) :
    SignatureService.generateAuthHeaders key secret now =
      Except.ok ⟨"2.0", key, toString now,
        md5Hex (strBytes (key ++ toString now ++ secret)), "keep-alive"⟩ := by
  unfold SignatureService.generateAuthHeaders
  rw [generateSignature_ok key secret now hk hs]

/-! ### Helper lemmas: standard envelope handling and configuration -/

theorem runStandardQuery_status_success (c : QixinApiClient) (msg : String)
    (env : Envelope) (h : env.status = "success") :
    runStandardQuery c msg [HttpOutcome.ok env] =
      ⟨Except.error ⟨jsOrStr env.message "查询失败", env.error_code, some JsNum.nan⟩,
        1⟩ := by
  unfold runStandardQuery
  rw [requestWithRetry_ok]
  show (if env.status ≠ "200" then
      (⟨Except.error ⟨jsOrStr env.message "查询失败", env.error_code,
        some (parseIntJs env.status)⟩, 1⟩ : OpResult)
    else
      match env.data with
      | none => ⟨Except.error ⟨msg, some "NO_DATA", none⟩, 1⟩
      | some d => ⟨Except.ok d, 1⟩) = _
  rw [if_pos (by rw [h]; exact (by decide : ("success" : String) ≠ "200")), h]
  rfl

theorem validateConfig_ok_iff (o : ConfigOptions) :
    validateConfig o = Except.ok () ↔
      (10 ≤ o.appKey.length ∧ 10 ≤ o.secretKey.length ∧
       (∃ t : Int, o.timeout = JsNum.int t ∧ 1000 ≤ t ∧ t ≤ 60000) ∧
       (o.maxRetries = JsNum.nan ∨
        ∃ m : Int, o.maxRetries = JsNum.int m ∧ 0 ≤ m ∧ m ≤ 10)) := by
  have hto : ∀ x : JsNum,
      (¬(x.falsy ∨ x.ltNum 1000 ∨ x.gtNum 60000 : Prop)) ↔
        ∃ t : Int, x = .int t ∧ 1000 ≤ t ∧ t ≤ 60000 := by
    intro x
    cases x with
    | nan => simp [JsNum.falsy, JsNum.ltNum, JsNum.gtNum]
    | int t =>
      simp [JsNum.falsy, JsNum.ltNum, JsNum.gtNum]
      omega
  have hmr : ∀ x : JsNum,
      (¬(x.ltNum 0 ∨ x.gtNum 10 : Prop)) ↔
        (x = .nan ∨ ∃ m : Int, x = .int m ∧ 0 ≤ m ∧ m ≤ 10) := by
    intro x
    cases x with
    | nan => simp [JsNum.ltNum, JsNum.gtNum]
    | int m =>
      simp [JsNum.ltNum, JsNum.gtNum]
      try omega
  unfold validateConfig
  split_ifs with h1 h2 h3 h4 h5
  · refine iff_of_false (by simp) ?_
    rintro ⟨hA, hB, _, _⟩
    rcases h1 with h | h
    · rw [h] at hA
      exact absurd hA (by decide)
    · rw [h] at hB
      exact absurd hB (by decide)
  · refine iff_of_false (by simp) ?_
    rintro ⟨hA, _, _, _⟩
    omega
  · refine iff_of_false (by simp) ?_
    rintro ⟨_, hB, _, _⟩
    omega
  · refine iff_of_false (by simp) ?_
    rintro ⟨_, _, ⟨t, ht, h1t, h2t⟩, _⟩
    rw [ht] at h4
    simp [JsNum.falsy, JsNum.ltNum, JsNum.gtNum] at h4
    omega
  · refine iff_of_false (by simp) ?_
    rintro ⟨_, _, _, hm⟩
    rcases hm with hm | ⟨m, hm, h1m, h2m⟩
    · rw [hm] at h5
      simp [JsNum.ltNum, JsNum.gtNum] at h5
    · rw [hm] at h5
      simp [JsNum.ltNum, JsNum.gtNum] at h5
      omega
  · refine iff_of_true rfl ?_
    push_neg at h1
    exact ⟨by omega, by omega, (hto o.timeout).mp h4, (hmr o.maxRetries).mp h5⟩

theorem configInit_ok_iff_validate (env : Env) :
    configInit env = Except.ok (loadConfig env) ↔
      validateConfig (loadConfig env) = Except.ok () := by
  cases hv : validateConfig (loadConfig env) with
  | error e => simp [configInit, hv]
  | ok u =>
    cases u
    simp [configInit, hv]

/-! ### Sanity checks of the embedding against known digests -/

example : md5Hex (strBytes "abc") = "900150983cd24fb0d6963f7d28e17f72" := by decide

example : md5Hex (strBytes "") = "d41d8cd98f00b204e9800998ecf8427e" := by decide

example : SignatureService.generateSignature ⟨"0123456789", 1000, "abcdefghij"⟩ =
    Except.ok "344a9bc1ba20cd97b3bd84bafc515535" := by decide

/-! ### Claim theorems -/

/-- C1: for every appkey and secretKey of length ≥ 10 and every timestamp,
`SignatureService.generateSignature` returns exactly the MD5 digest of
`appkey ++ decimal(timestamp) ++ secretKey` (no separators), rendered as
32 lowercase hexadecimal characters, and is deterministic (identical
inputs give identical output). -/
theorem C1_generateSignature_md5 (key secret : String) (t : Nat)
    (hk : 10 ≤ key.length) (hs : 10 ≤ secret.length) :
    SignatureService.generateSignature ⟨key, t, secret⟩ =
      Except.ok (md5Hex (strBytes (key ++ toString t ++ secret))) ∧
    (md5Hex (strBytes (key ++ toString t ++ secret))).length = 32 ∧
    (∀ c ∈ (md5Hex (strBytes (key ++ toString t ++ secret))).data, c ∈ hexChars) ∧
    (∀ o₁ o₂ : SignatureOptions, o₁ = o₂ →
      SignatureService.generateSignature o₁ = SignatureService.generateSignature o₂) :=
  ⟨generateSignature_ok key secret t hk hs, md5Hex_length _, md5Hex_mem _,
    fun _ _ h => congrArg _ h⟩

/-- Witness for C1 at the end-to-end vector `("0123456789", "abcdefghij")`,
timestamp 1000. -/
theorem C1_generateSignature_md5_witness :
    10 ≤ ("0123456789" : String).length ∧ 10 ≤ ("abcdefghij" : String).length ∧
    (SignatureService.generateSignature ⟨"0123456789", 1000, "abcdefghij"⟩ =
      Except.ok (md5Hex (strBytes ("0123456789" ++ toString 1000 ++ "abcdefghij"))) ∧
    (md5Hex (strBytes ("0123456789" ++ toString 1000 ++ "abcdefghij"))).length = 32 ∧
    (∀ c ∈ (md5Hex (strBytes ("0123456789" ++ toString 1000 ++ "abcdefghij"))).data,
      c ∈ hexChars) ∧
    (∀ o₁ o₂ : SignatureOptions, o₁ = o₂ →
      SignatureService.generateSignature o₁ = SignatureService.generateSignature o₂)) :=
  ⟨by decide, by decide,
    C1_generateSignature_md5 "0123456789" "abcdefghij" 1000 (by decide) (by decide)⟩

/-- C2 (refuted — code bug): in the constructor `maxRetries || 3`, the
configured value 0 is falsy, so a client configured with `maxRetries = 0`
runs with an effective `maxRetries` of 3: faced with persistent 500s it
issues 4 HTTP requests (with backoff delays 1000, 2000, 4000 ms), not the
single request the claim demands for N = 0. -/
theorem C2_maxRetriesZero_behavesAsThree :
    (mkQixinApiClient "0123456789" "abcdefghij" none none (some 0)).maxRetries = 3 ∧
    effectiveMaxRetries (JsNum.int 0) = 3 ∧
    requestWithRetry 3 (List.replicate 4 (HttpOutcome.httpError 500 none)) 0 =
      ⟨RetryOutcome.failure (HttpOutcome.httpError 500 none), 4, [1000, 2000, 4000]⟩ ∧
    (requestWithRetry 3 (List.replicate 4 (HttpOutcome.httpError 500 none)) 0).attempts ≠ 1 :=
  ⟨rfl, rfl, by decide, by decide⟩

/-- C4: a credential pair with key or secret shorter than 10 characters
(including empty) makes `generateSignature` and `generateAuthHeaders` fail
with the error raised by `validateSignatureParams`, for every timestamp —
the validation error is produced before any digest computation. -/
theorem C4_shortCredentials_failFast (key secret : String)
    (h : key.length < 10 ∨ secret.length < 10) :
    ∃ m, SignatureService.validateSignatureParams key secret = Except.error m ∧
      (∀ t : Nat, SignatureService.generateSignature ⟨key, t, secret⟩ =
        Except.error m) ∧
      (∀ now : Nat, SignatureService.generateAuthHeaders key secret now =
        Except.error m) := by
  have hv : ∃ m, SignatureService.validateSignatureParams key secret =
      Except.error m := by
    unfold SignatureService.validateSignatureParams
    by_cases h1 : key = ""
    · rw [if_pos h1]
      exact ⟨_, rfl⟩
    · rw [if_neg h1]
      by_cases h2 : secret = ""
      · rw [if_pos h2]
        exact ⟨_, rfl⟩
      · rw [if_neg h2]
        by_cases h3 : key.length < 10
        · rw [if_pos h3]
          exact ⟨_, rfl⟩
        · rw [if_neg h3, if_pos (show secret.length < 10 by omega)]
          exact ⟨_, rfl⟩
  obtain ⟨m, hm⟩ := hv
  refine ⟨m, hm, fun t => ?_, fun now => ?_⟩
  · unfold SignatureService.generateSignature
    rw [hm]
  · unfold SignatureService.generateAuthHeaders SignatureService.generateSignature
    rw [hm]

/-- Witness for C4: a short key with a valid secret. -/
theorem C4_shortCredentials_failFast_witness :
    (("short" : String).length < 10 ∨ ("abcdefghij" : String).length < 10) ∧
    ∃ m, SignatureService.validateSignatureParams "short" "abcdefghij" =
        Except.error m ∧
      (∀ t : Nat, SignatureService.generateSignature ⟨"short", t, "abcdefghij"⟩ =
        Except.error m) ∧
      (∀ now : Nat, SignatureService.generateAuthHeaders "short" "abcdefghij" now =
        Except.error m) :=
  ⟨by decide, C4_shortCredentials_failFast "short" "abcdefghij" (by decide)⟩

/-- C5: a single 4xx response other than 429 is terminal after exactly one
HTTP request and zero retries, whatever `maxRetries` is configured, and
the translated error carries the upstream message and error code when
present, together with the HTTP status. -/
theorem C5_clientError_noRetry (maxRetries s : Nat) (body : Option Envelope)
    (rest : List HttpOutcome) (h4 : 400 ≤ s) (h5 : s < 500) (h429 : s ≠ 429) :
    requestWithRetry maxRetries (HttpOutcome.httpError s body :: rest) 0 =
      ⟨RetryOutcome.failure (HttpOutcome.httpError s body), 1, []⟩ ∧
    (∀ env m cd, body = some env → env.message = some m → m ≠ "" →
      env.error_code = some cd → cd ≠ "" →
      handleApiError (HttpOutcome.httpError s body) =
        ⟨m, some cd, some (JsNum.int s)⟩) := by
  constructor
  · apply requestWithRetry_noRetry
    · rintro ⟨-, hr⟩
      simp only [shouldRetry] at hr
      rw [if_neg (show ¬ 500 ≤ s by omega), if_neg h429] at hr
      exact Bool.noConfusion hr
    · intro env hEq
      exact HttpOutcome.noConfusion hEq
  · rintro env m cd rfl hmsg hm hcd hc
    unfold handleApiError
    simp [jsOrStr, hmsg, hcd, hm, hc]

/-- Witness for C5: a 404 carrying an upstream message and code. -/
theorem C5_clientError_noRetry_witness :
    (400 ≤ 404 ∧ 404 < 500 ∧ 404 ≠ 429) ∧
    (requestWithRetry 7
        (HttpOutcome.httpError 404 (some ⟨"404", some "not found", none, some "ERR_404"⟩) ::
          [HttpOutcome.networkError]) 0 =
      ⟨RetryOutcome.failure
        (HttpOutcome.httpError 404 (some ⟨"404", some "not found", none, some "ERR_404"⟩)),
       1, []⟩ ∧
    (∀ env m cd,
      (some ⟨"404", some "not found", none, some "ERR_404"⟩ : Option Envelope) = some env →
      env.message = some m → m ≠ "" → env.error_code = some cd → cd ≠ "" →
      handleApiError
          (HttpOutcome.httpError 404 (some ⟨"404", some "not found", none, some "ERR_404"⟩)) =
        ⟨m, some cd, some (JsNum.int 404)⟩)) :=
  ⟨⟨by decide, by decide, by decide⟩,
    C5_clientError_noRetry 7 404 (some ⟨"404", some "not found", none, some "ERR_404"⟩)
      [HttpOutcome.networkError] (by decide) (by decide) (by decide)⟩

/-- C3: a dispatcher configured with `maxRetries = N` that receives N
consecutive 503s and then a 200 returns the success envelope after exactly
N + 1 HTTP attempts with the capped exponential backoff delays; every
attempt regenerates its auth headers from the clock reading at that
attempt, so attempts with pairwise-distinct clock readings carry
pairwise-distinct header sets (a fresh timestamp/digest pair each time). -/
theorem C3_retries_then_success (N : Nat) (key secret : String)
    (hk : 10 ≤ key.length) (hs : 10 ≤ secret.length)
    (env : Envelope) (ts : List Nat) (hts : ts.Pairwise (· ≠ ·)) :
    requestWithRetry (mkQixinApiClient key secret none none (some N)).maxRetries
        (List.replicate N (HttpOutcome.httpError 503 none) ++ [HttpOutcome.ok env]) 0 =
      ⟨RetryOutcome.success env, N + 1,
        (List.range N).map (fun k => min (1000 * 2 ^ k) 10000)⟩ ∧
    ((ts.take (N + 1)).map
        (fun now => SignatureService.generateAuthHeaders key secret now)).Pairwise
      (· ≠ ·) ∧
    (∀ now : Nat, SignatureService.generateAuthHeaders key secret now =
      Except.ok ⟨"2.0", key, toString now,
        md5Hex (strBytes (key ++ toString now ++ secret)), "keep-alive"⟩) := by
  refine ⟨?_, ?_, fun now => generateAuthHeaders_ok key secret now hk hs⟩
  · have hsr : shouldRetry (HttpOutcome.httpError 503 none) = true := by decide
    have hmr : (mkQixinApiClient key secret none none (some N)).maxRetries =
        if N = 0 then 3 else N := rfl
    by_cases h0 : N = 0
    · subst h0
      rw [hmr]
      simpa using requestWithRetry_ok 3 env [] 0
    · rw [hmr, if_neg h0]
      simpa using
        requestWithRetry_replicate N (HttpOutcome.httpError 503 none) hsr env N 0
          (by omega)
  · have hinj : ∀ a b : Nat, a ≠ b →
        SignatureService.generateAuthHeaders key secret a ≠
          SignatureService.generateAuthHeaders key secret b := by
      intro a b hab heq
      rw [generateAuthHeaders_ok key secret a hk hs,
          generateAuthHeaders_ok key secret b hk hs] at heq
      simp only [Except.ok.injEq, SignatureService.AuthHeaders.mk.injEq] at heq
      exact hab (toString_nat_inj a b heq.2.2.1)
    have htake : (ts.take (N + 1)).Pairwise (· ≠ ·) :=
      List.Pairwise.sublist (List.take_sublist _ _) hts
    exact htake.map _ (fun a b hab => hinj a b hab)

/-- Witness for C3: `N = 2`, three distinct clock readings. -/
theorem C3_retries_then_success_witness :
    (10 ≤ ("0123456789" : String).length ∧ 10 ≤ ("abcdefghij" : String).length ∧
      ([1000, 2000, 3000] : List Nat).Pairwise (· ≠ ·)) ∧
    (requestWithRetry
        (mkQixinApiClient "0123456789" "abcdefghij" none none (some 2)).maxRetries
        (List.replicate 2 (HttpOutcome.httpError 503 none) ++
          [HttpOutcome.ok ⟨"200", none, some [], none⟩]) 0 =
      ⟨RetryOutcome.success ⟨"200", none, some [], none⟩, 2 + 1,
        (List.range 2).map (fun k => min (1000 * 2 ^ k) 10000)⟩ ∧
    (([1000, 2000, 3000] : List Nat).take (2 + 1) |>.map
        (fun now => SignatureService.generateAuthHeaders "0123456789" "abcdefghij" now)).Pairwise
      (· ≠ ·) ∧
    (∀ now : Nat, SignatureService.generateAuthHeaders "0123456789" "abcdefghij" now =
      Except.ok ⟨"2.0", "0123456789", toString now,
        md5Hex (strBytes ("0123456789" ++ toString now ++ "abcdefghij")), "keep-alive"⟩)) :=
  ⟨⟨by decide, by decide, by decide⟩,
    C3_retries_then_success 2 "0123456789" "abcdefghij" (by decide) (by decide)
      ⟨"200", none, some [], none⟩ [1000, 2000, 3000] (by decide)⟩

/-- C6: `formatEnterpriseInfo` spreads the whole upstream object after the
canonical aliased fields, so (i) every field present upstream survives
unchanged in the output — in particular a canonical field present upstream
takes precedence over its computed alias, (ii) the output keeps every
upstream key (union, not replacement), and (iii) when the canonical `name`
is absent upstream, the alternate spelling `entName` populates it. -/
theorem C6_formatEnterpriseInfo_alias (data : Obj) :
    (∀ k, hasKey data k = true →
      objGet (formatEnterpriseInfo data) k = objGet data k) ∧
    (∀ k, hasKey data k = true → hasKey (formatEnterpriseInfo data) k = true) ∧
    (hasKey data "name" = false →
      objGet (formatEnterpriseInfo data) "name" =
        jsOr (objGet data "entName") (Val.str "")) := by
  refine ⟨fun k hk => ?_, fun k hk => ?_, fun hn => ?_⟩
  · unfold formatEnterpriseInfo
    rw [objGet_append, if_pos hk]
  · unfold formatEnterpriseInfo
    rw [hasKey_append, hk, Bool.or_true]
  · unfold formatEnterpriseInfo
    rw [objGet_append, if_neg (by simp [hn]), objGet_of_not_hasKey data "name" hn]
    simp [objGet, jsOr, Val.truthy]

/-- Witness for C6: upstream payload with `entName` but no `name`. -/
theorem C6_formatEnterpriseInfo_alias_witness :
    (hasKey ([("entName", Val.str "Acme"), ("foo", Val.str "bar")] : Obj) "foo" = true ∧
      hasKey ([("entName", Val.str "Acme"), ("foo", Val.str "bar")] : Obj) "name" = false) ∧
    objGet (formatEnterpriseInfo [("entName", Val.str "Acme"), ("foo", Val.str "bar")])
        "foo" = objGet [("entName", Val.str "Acme"), ("foo", Val.str "bar")] "foo" ∧
    objGet (formatEnterpriseInfo [("entName", Val.str "Acme"), ("foo", Val.str "bar")])
        "name" =
      jsOr (objGet [("entName", Val.str "Acme"), ("foo", Val.str "bar")] "entName")
        (Val.str "") :=
  ⟨⟨by decide, by decide⟩,
    (C6_formatEnterpriseInfo_alias [("entName", Val.str "Acme"), ("foo", Val.str "bar")]).1
      "foo" (by decide),
    (C6_formatEnterpriseInfo_alias [("entName", Val.str "Acme"), ("foo", Val.str "bar")]).2.2
      (by decide)⟩

/-- C7: an envelope whose status is a success sentinel but whose `data` is
absent makes `getBasicInfo` fail with the `NO_DATA` error after a single
request and no retry; an envelope whose status is not a success sentinel
produces an error carrying `parseInt(status)` in its `statusCode`, and any
such error differs from the `NO_DATA` error, whose `statusCode` is
absent. -/
theorem C7_noData_vs_statusError (c : QixinApiClient) (keyword : String)
    (hkw : ¬(keyword = "" ∨ (jsTrim keyword).length = 0))
    (env : Envelope) (hst : env.status = "200" ∨ env.status = "success")
    (hd : env.data = none) :
    getBasicInfo c keyword [HttpOutcome.ok env] =
      ⟨Except.error ⟨"未找到相关企业信息", some "NO_DATA", none⟩, 1⟩ ∧
    (∀ env' : Envelope, env'.status ≠ "200" → env'.status ≠ "success" →
      (getBasicInfo c keyword [HttpOutcome.ok env']).result =
        Except.error ⟨jsOrStr env'.message "查询失败", env'.error_code,
          some (parseIntJs env'.status)⟩) ∧
    (∀ m cd st, (⟨m, cd, some st⟩ : QixinApiError) ≠
      ⟨"未找到相关企业信息", some "NO_DATA", none⟩) := by
  refine ⟨?_, fun env' h1 h2 => ?_, fun m cd st hEq => ?_⟩
  · unfold getBasicInfo
    rw [if_neg hkw]
    show (if env.status ≠ "200" ∧ env.status ≠ "success" then
        (⟨Except.error ⟨jsOrStr env.message "查询失败", env.error_code,
          some (parseIntJs env.status)⟩, 1⟩ : OpResult)
      else
        match env.data with
        | none => ⟨Except.error ⟨"未找到相关企业信息", some "NO_DATA", none⟩, 1⟩
        | some d => ⟨Except.ok (formatEnterpriseInfo d), 1⟩) = _
    rw [if_neg (by rcases hst with h | h <;> simp [h]), hd]
  · unfold getBasicInfo
    rw [if_neg hkw]
    show (OpResult.result (if env'.status ≠ "200" ∧ env'.status ≠ "success" then
        (⟨Except.error ⟨jsOrStr env'.message "查询失败", env'.error_code,
          some (parseIntJs env'.status)⟩, 1⟩ : OpResult)
      else
        match env'.data with
        | none => ⟨Except.error ⟨"未找到相关企业信息", some "NO_DATA", none⟩, 1⟩
        | some d => ⟨Except.ok (formatEnterpriseInfo d), 1⟩)) = _
    rw [if_pos ⟨h1, h2⟩]
  · simp [QixinApiError.mk.injEq] at hEq

/-- Witness for C7: a `success` envelope with no data. -/
theorem C7_noData_vs_statusError_witness :
    (¬(("企业甲" : String) = "" ∨ (jsTrim "企业甲").length = 0) ∧
      (("success" : String) = "200" ∨ ("success" : String) = "success")) ∧
    (getBasicInfo (mkQixinApiClient "0123456789" "abcdefghij" none none none) "企业甲"
        [HttpOutcome.ok ⟨"success", none, none, none⟩] =
      ⟨Except.error ⟨"未找到相关企业信息", some "NO_DATA", none⟩, 1⟩ ∧
    (∀ env' : Envelope, env'.status ≠ "200" → env'.status ≠ "success" →
      (getBasicInfo (mkQixinApiClient "0123456789" "abcdefghij" none none none) "企业甲"
          [HttpOutcome.ok env']).result =
        Except.error ⟨jsOrStr env'.message "查询失败", env'.error_code,
          some (parseIntJs env'.status)⟩) ∧
    (∀ m cd st, (⟨m, cd, some st⟩ : QixinApiError) ≠
      ⟨"未找到相关企业信息", some "NO_DATA", none⟩)) :=
  ⟨⟨by decide, by decide⟩,
    C7_noData_vs_statusError (mkQixinApiClient "0123456789" "abcdefghij" none none none)
      "企业甲" (by decide) ⟨"success", none, none, none⟩ (by decide) rfl⟩

/-- C8: a fuzzy-search keyword whose trimmed form is shorter than 2
characters, or exactly the bare word `公司` or `有限公司`, fails with an
invalid-argument error and zero HTTP calls are performed. -/
theorem C8_searchKeyword_guards (c : QixinApiClient) (keyword : String)
    (mt rg : Option String) (skip : Option Nat) (responses : List HttpOutcome)
    (h : (jsTrim keyword).length < 2 ∨ jsTrim keyword = "公司" ∨
      jsTrim keyword = "有限公司") :
    ∃ msg, searchEnterprise c keyword mt rg skip responses =
      ⟨Except.error ⟨msg, none, none⟩, 0⟩ := by
  by_cases h1 : keyword = "" ∨ (jsTrim keyword).length < 2
  · refine ⟨"查询关键词至少需要2个字符", ?_⟩
    unfold searchEnterprise
    rw [if_pos h1]
  · have h2 : jsTrim keyword = "公司" ∨ jsTrim keyword = "有限公司" := by
      rcases h with hl | h2 | h2
      · exact absurd (Or.inr hl) h1
      · exact Or.inl h2
      · exact Or.inr h2
    refine ⟨"不允许仅输入\x22公司\x22或\x22有限公司\x22", ?_⟩
    unfold searchEnterprise
    rw [if_neg h1]
    show (if jsTrim keyword = "公司" ∨ jsTrim keyword = "有限公司" then _ else _) = _
    rw [if_pos h2]

/-- Witness for C8: the bare keyword `公司`. -/
theorem C8_searchKeyword_guards_witness :
    ((jsTrim "公司").length < 2 ∨ jsTrim "公司" = "公司" ∨ jsTrim "公司" = "有限公司") ∧
    ∃ msg, searchEnterprise (mkQixinApiClient "0123456789" "abcdefghij" none none none)
        "公司" none none none [] =
      ⟨Except.error ⟨msg, none, none⟩, 0⟩ :=
  ⟨by decide,
    C8_searchKeyword_guards (mkQixinApiClient "0123456789" "abcdefghij" none none none)
      "公司" none none none [] (by decide)⟩

/-- C9 (amended): configuration validation happens at construction
(startup): it succeeds exactly when the key and secret have length ≥ 10,
the timeout parses to an integer in 1000–60000, and the maximum-retries
value is either a parsed integer in 0–10 or `NaN` — an unparseable
maximum-retries string (e.g. `"abc"`) yields `NaN`, which passes the
validation because `NaN < 0` and `NaN > 10` are both false. -/
theorem C9_config_validation (env : Env) :
    (configInit env = Except.ok (loadConfig env) ↔
      validateConfig (loadConfig env) = Except.ok ()) ∧
    (validateConfig (loadConfig env) = Except.ok () ↔
      (10 ≤ (loadConfig env).appKey.length ∧
       10 ≤ (loadConfig env).secretKey.length ∧
       (∃ t : Int, (loadConfig env).timeout = JsNum.int t ∧ 1000 ≤ t ∧ t ≤ 60000) ∧
       ((loadConfig env).maxRetries = JsNum.nan ∨
        ∃ m : Int, (loadConfig env).maxRetries = JsNum.int m ∧ 0 ≤ m ∧ m ≤ 10))) :=
  ⟨configInit_ok_iff_validate env, validateConfig_ok_iff (loadConfig env)⟩

/-- C9 counterexample: with valid credentials and the maximum-retries
variable set to `"abc"`, `parseInt` yields `NaN` and construction
succeeds with `maxRetries = NaN`, which is not an integer in 0–10 —
refuting the claim that every out-of-range maximum-retries value fails at
startup. -/
theorem C9_config_nan_counterexample :
    configInit ⟨some "0123456789", some "abcdefghij", none, none, some "abc"⟩ =
      Except.ok ⟨"0123456789", "abcdefghij", "https://api.qixin.com/APIService",
        JsNum.int 30000, JsNum.nan⟩ ∧
    (∀ n : Int, (JsNum.nan : JsNum) ≠ JsNum.int n) :=
  ⟨by decide, fun n h => JsNum.noConfusion h⟩

/-- C10 (implicit): the success sentinel is not uniform across the eleven
operations — `getBasicInfo` accepts an envelope with status `"success"`
and returns the formatted payload, while each of the other ten operations
accepts only `"200"` and turns the same envelope into a terminal client
error whose `statusCode` is `parseInt("success") = NaN`, after exactly one
HTTP request in every case. -/
theorem C10_success_sentinel_not_uniform (c : QixinApiClient) (env : Envelope)
    (d : Obj) (hs : env.status = "success") (hd : env.data = some d) :
    getBasicInfo c "企业甲集团" [HttpOutcome.ok env] =
      ⟨Except.ok (formatEnterpriseInfo d), 1⟩ ∧
    searchEnterprise c "企业甲集团" none none none [HttpOutcome.ok env] =
      ⟨Except.error ⟨jsOrStr env.message "查询失败", env.error_code, some JsNum.nan⟩,
        1⟩ ∧
    getContactInfo c "企业甲集团" [HttpOutcome.ok env] =
      ⟨Except.error ⟨jsOrStr env.message "查询失败", env.error_code, some JsNum.nan⟩,
        1⟩ ∧
    getEntSize c "企业甲集团" [HttpOutcome.ok env] =
      ⟨Except.error ⟨jsOrStr env.message "查询失败", env.error_code, some JsNum.nan⟩,
        1⟩ ∧
    getExecutedEnterprise c "企业甲集团" none [HttpOutcome.ok env] =
      ⟨Except.error ⟨jsOrStr env.message "查询失败", env.error_code, some JsNum.nan⟩,
        1⟩ ∧
    getDishonestEnterprise c "企业甲集团" none [HttpOutcome.ok env] =
      ⟨Except.error ⟨jsOrStr env.message "查询失败", env.error_code, some JsNum.nan⟩,
        1⟩ ∧
    getLegalDocuments c "企业甲集团" none none [HttpOutcome.ok env] =
      ⟨Except.error ⟨jsOrStr env.message "查询失败", env.error_code, some JsNum.nan⟩,
        1⟩ ∧
    getEnterpriseGenealogy3 c "企业甲集团" [HttpOutcome.ok env] =
      ⟨Except.error ⟨jsOrStr env.message "查询失败", env.error_code, some JsNum.nan⟩,
        1⟩ ∧
    getAdminPenalty c "企业甲集团" none [HttpOutcome.ok env] =
      ⟨Except.error ⟨jsOrStr env.message "查询失败", env.error_code, some JsNum.nan⟩,
        1⟩ ∧
    getSeriousIllegal c "企业甲集团" [HttpOutcome.ok env] =
      ⟨Except.error ⟨jsOrStr env.message "查询失败", env.error_code, some JsNum.nan⟩,
        1⟩ ∧
    getGuaranteeList c "企业甲集团" none [HttpOutcome.ok env] =
      ⟨Except.error ⟨jsOrStr env.message "查询失败", env.error_code, some JsNum.nan⟩,
        1⟩ := by
  refine ⟨?_, ?_, ?_, ?_, ?_, ?_, ?_, ?_, ?_, ?_, ?_⟩
  · unfold getBasicInfo
    rw [if_neg (by decide)]
    show (if env.status ≠ "200" ∧ env.status ≠ "success" then
        (⟨Except.error ⟨jsOrStr env.message "查询失败", env.error_code,
          some (parseIntJs env.status)⟩, 1⟩ : OpResult)
      else
        match env.data with
        | none => ⟨Except.error ⟨"未找到相关企业信息", some "NO_DATA", none⟩, 1⟩
        | some d => ⟨Except.ok (formatEnterpriseInfo d), 1⟩) = _
    rw [if_neg (by simp [hs]), hd]
  · unfold searchEnterprise
    rw [if_neg (by decide)]
    show (if jsTrim "企业甲集团" = "公司" ∨ jsTrim "企业甲集团" = "有限公司" then _
      else _) = _
    rw [if_neg (by decide)]
    exact runStandardQuery_status_success c _ env hs
  · unfold getContactInfo
    rw [if_neg (by decide)]
    exact runStandardQuery_status_success c _ env hs
  · unfold getEntSize
    rw [if_neg (by decide)]
    exact runStandardQuery_status_success c _ env hs
  · unfold getExecutedEnterprise
    rw [if_neg (by decide)]
    exact runStandardQuery_status_success c _ env hs
  · unfold getDishonestEnterprise
    rw [if_neg (by decide)]
    exact runStandardQuery_status_success c _ env hs
  · unfold getLegalDocuments
    rw [if_neg (by decide)]
    exact runStandardQuery_status_success c _ env hs
  · unfold getEnterpriseGenealogy3
    rw [if_neg (by decide)]
    exact runStandardQuery_status_success c _ env hs
  · unfold getAdminPenalty
    rw [if_neg (by decide)]
    exact runStandardQuery_status_success c _ env hs
  · unfold getSeriousIllegal
    rw [if_neg (by decide)]
    exact runStandardQuery_status_success c _ env hs
  · unfold getGuaranteeList
    rw [if_neg (by decide)]
    exact runStandardQuery_status_success c _ env hs

/-- Witness for C10: a concrete `"success"` envelope with data; the
basic-info query returns the payload while the contact-info query (like
the other nine standard operations) raises the client error with `NaN`
status. -/
theorem C10_success_sentinel_not_uniform_witness :
    ((⟨"success", some "查询成功", some [("name", Val.str "甲")], none⟩ : Envelope).status =
        "success" ∧
      (⟨"success", some "查询成功", some [("name", Val.str "甲")], none⟩ : Envelope).data =
        some [("name", Val.str "甲")]) ∧
    getBasicInfo (mkQixinApiClient "0123456789" "abcdefghij" none none none) "企业甲集团"
        [HttpOutcome.ok ⟨"success", some "查询成功", some [("name", Val.str "甲")], none⟩] =
      ⟨Except.ok (formatEnterpriseInfo [("name", Val.str "甲")]), 1⟩ ∧
    getContactInfo (mkQixinApiClient "0123456789" "abcdefghij" none none none) "企业甲集团"
        [HttpOutcome.ok ⟨"success", some "查询成功", some [("name", Val.str "甲")], none⟩] =
      ⟨Except.error ⟨"查询成功", none, some JsNum.nan⟩, 1⟩ :=
  ⟨⟨rfl, rfl⟩,
    (C10_success_sentinel_not_uniform
      (mkQixinApiClient "0123456789" "abcdefghij" none none none)
      ⟨"success", some "查询成功", some [("name", Val.str "甲")], none⟩
      [("name", Val.str "甲")] rfl rfl).1,
    (C10_success_sentinel_not_uniform
      (mkQixinApiClient "0123456789" "abcdefghij" none none none)
      ⟨"success", some "查询成功", some [("name", Val.str "甲")], none⟩
      [("name", Val.str "甲")] rfl rfl).2.2.1⟩

end Qixin
